import Mathlib

/-!
Verification development for the `FlowFilter` orchestrator of the
CUDA-optical-flow-filter repository (`src/src/gpu/flowfilter.cu`).

The orchestrator wires four GPU-resident stages (ImageModel, FlowPropagator,
FlowUpdate, FlowSmoother) into a cyclic pipeline over named device buffers.
Stage internals and the `GPUImage` primitive are external collaborators: the
orchestrator only calls `compute()`, getters/setters, and the buffer
operations `upload`, `download`, `copyFrom`, `clear`.  We embed the
orchestrator faithfully from the source and model the collaborators
symbolically: device buffer contents form a free algebra (`Val`) whose
constructors record which stage produced the value from which inputs, so the
dataflow and ordering facts we prove are about the real wiring.

Floating point scalars (`gamma`, `maxflow`) are modelled as rationals: every
claim about them concerns plumbing (pass-through, `ceil`), not float
arithmetic.
-/

namespace Flowfilter

/-- Identity of a device buffer allocation.  Each `GPUImage` handle carries
the identity of the underlying allocation; two handles with the same id alias
the same device memory (C++ `GPUImage` wraps a shared device pointer). -/
inductive BufferId where
  | inputImage
  | imageConstant
  | imageGradient
  | dummyFlow
  | propagatedFlow
  | updatedFlow
  | updatedImage
  | smoothedFlow
deriving DecidableEq, Repr

/-- Host image descriptor (`flowfilter::image_t`): shape plus abstract pixel
contents (a symbolic id; pixel values are irrelevant to the orchestrator). -/
structure image_t where
  height : Int
  width : Int
  data : Nat
deriving DecidableEq, Repr

/-- Symbolic contents of a device buffer.  Constructors record the producing
operation and its inputs, mirroring the dataflow of the pipeline:
`uninit` is freshly allocated device memory, `zero` the result of `clear()`,
`host` an uploaded host image, and the stage constructors the outputs of the
four stages' `compute()` on the recorded inputs. -/
inductive Val where
  | uninit
  | zero
  | host (data : Nat)
  | imConstant (input : Val)
  | imGradient (input : Val)
  | propagated (inputFlow : Val) (iterations : Int)
  | updFlow (inputFlow imConstant imGradient oldImage : Val) (gamma maxflow : ℚ)
  | updImage (inputFlow imConstant imGradient oldImage : Val) (gamma maxflow : ℚ)
  | smoothed (inputFlow : Val) (iterations : Int)
deriving DecidableEq, Repr

/-- Modelled from the spec: the `GPUImage` device buffer primitive (not under
src/) — a typed, shape-tagged block of device data (height × width × channels
× element-size) with `upload`, `download`, `copyFrom`, `clear`.  `id` is the
identity of the underlying allocation. -/
structure GPUImage where
  id : BufferId
  height : Int
  width : Int
  depth : Int
  itemSize : Int
  data : Val
deriving DecidableEq, Repr

/-- Fresh device allocation: shape as requested, contents uninitialized. -/
def GPUImage.alloc (id : BufferId) (height width depth itemSize : Int) : GPUImage :=
  { id := id, height := height, width := width, depth := depth,
    itemSize := itemSize, data := Val.uninit }

/-- Modelled from the spec: `clear()` zero-fills the buffer. -/
def GPUImage.clear (g : GPUImage) : GPUImage :=
  { g with data := Val.zero }

/-- Modelled from the spec: `copyFrom` is a device-to-device content copy. -/
def GPUImage.copyFrom (g src : GPUImage) : GPUImage :=
  { g with data := src.data }

/-- Errors of the orchestrator's interface (spec §7): construction with a
non-positive dimension, a host/device shape disagreement on transfer, and use
of an unconfigured instance (outside the modelled behaviour). -/
inductive FilterError where
  | constructionError
  | shapeMismatch
  | notConfigured
deriving DecidableEq, Repr

/-- Modelled from the spec: `upload` (host → device) fails fast with a
ShapeMismatch error when the host image's dimensions differ from the
buffer's; otherwise it replaces the buffer contents by the host contents. -/
def GPUImage.upload (g : GPUImage) (img : image_t) : Except FilterError GPUImage :=
  if img.height = g.height ∧ img.width = g.width then
    Except.ok { g with data := Val.host img.data }
  else
    Except.error FilterError.shapeMismatch

/-- The store of named device buffers owned (transitively) by a configured
`FlowFilter`: the orchestrator's `__inputImage`, the outputs of the four
stages, and the dummy flow used to break the construction cycle. -/
structure Buffers where
  inputImage : GPUImage
  propagatedFlow : GPUImage
  updatedFlow : GPUImage
  updatedImage : GPUImage
  smoothedFlow : GPUImage
  imageConstant : GPUImage
  imageGradient : GPUImage
  dummyFlow : GPUImage
deriving DecidableEq, Repr

/-- Dereference a buffer reference held by a stage. -/
def Buffers.read (b : Buffers) : BufferId → GPUImage
  | BufferId.inputImage => b.inputImage
  | BufferId.propagatedFlow => b.propagatedFlow
  | BufferId.updatedFlow => b.updatedFlow
  | BufferId.updatedImage => b.updatedImage
  | BufferId.smoothedFlow => b.smoothedFlow
  | BufferId.imageConstant => b.imageConstant
  | BufferId.imageGradient => b.imageGradient
  | BufferId.dummyFlow => b.dummyFlow

/-- The ImageModel stage: holds a reference to its input image buffer;
its outputs are the `imageConstant` and `imageGradient` buffers. -/
structure ImageModel where
  input : BufferId
deriving DecidableEq, Repr

/-- Modelled from the spec: `ImageModel.compute()` recomputes ImageConstant
and ImageGradient from the current input image. -/
def ImageModel.run (m : ImageModel) (b : Buffers) : Buffers :=
  { b with
    imageConstant := { b.imageConstant with data := Val.imConstant (b.read m.input).data }
    imageGradient := { b.imageGradient with data := Val.imGradient (b.read m.input).data } }

/-- The FlowPropagator stage: a reference to its input flow buffer and an
iteration count; its output is the `propagatedFlow` buffer. -/
structure FlowPropagator where
  inputFlow : BufferId
  iterations : Int
deriving DecidableEq, Repr

/-- Modelled from the spec: `FlowPropagator.compute()` warps the input flow
forward by the configured iteration count into propagatedFlow. -/
def FlowPropagator.run (p : FlowPropagator) (b : Buffers) : Buffers :=
  { b with
    propagatedFlow :=
      { b.propagatedFlow with data := Val.propagated (b.read p.inputFlow).data p.iterations } }

/-- The FlowUpdate stage: references to its input flow (late-bound via
`setInputFlow`), image constant and image gradient buffers, plus the scalar
parameters gamma and maxflow; its outputs are `updatedFlow` and
`updatedImage`. -/
structure FlowUpdate where
  inputFlow : BufferId
  imageConstantRef : BufferId
  imageGradientRef : BufferId
  gamma : ℚ
  maxflow : ℚ
deriving DecidableEq, Repr

/-- Modelled from the spec: `FlowUpdate.compute()` combines the input
(propagated) flow with ImageConstant/ImageGradient and the previous
UpdatedImage to produce updatedFlow and a new UpdatedImage, using
gamma/maxflow. -/
def FlowUpdate.run (u : FlowUpdate) (b : Buffers) : Buffers :=
  { b with
    updatedFlow :=
      { b.updatedFlow with
        data := Val.updFlow (b.read u.inputFlow).data (b.read u.imageConstantRef).data
          (b.read u.imageGradientRef).data b.updatedImage.data u.gamma u.maxflow }
    updatedImage :=
      { b.updatedImage with
        data := Val.updImage (b.read u.inputFlow).data (b.read u.imageConstantRef).data
          (b.read u.imageGradientRef).data b.updatedImage.data u.gamma u.maxflow } }

/-- The FlowSmoother stage: a reference to its input flow buffer and an
iteration count; its output is the `smoothedFlow` buffer. -/
structure FlowSmoother where
  inputFlow : BufferId
  iterations : Int
deriving DecidableEq, Repr

/-- Modelled from the spec: `FlowSmoother.compute()` diffuses the input flow
for the configured iteration count into smoothedFlow. -/
def FlowSmoother.run (s : FlowSmoother) (b : Buffers) : Buffers :=
  { b with
    smoothedFlow :=
      { b.smoothedFlow with data := Val.smoothed (b.read s.inputFlow).data s.iterations } }

/-- The configured part of a `FlowFilter`: the buffer store and the four
stage objects (`__imageModel`, `__update`, `__smoother`, `__propagator`). -/
structure Rig where
  buffers : Buffers
  imageModel : ImageModel
  update : FlowUpdate
  smoother : FlowSmoother
  propagator : FlowPropagator
deriving DecidableEq, Repr

/-- `FlowFilter` state: dimensions and flags (`__height`, `__width`,
`__configured`, `__firstLoad`) plus the stage rig, present only once
`configure()` has run (`none` models the default-constructed instance, which
has allocated no buffers and constructed no stages). -/
structure FlowFilter where
  hgt : Int
  wdt : Int
  configured : Bool
  firstLoad : Bool
  rig : Option Rig
deriving DecidableEq, Repr

/-- `FlowFilter::FlowFilter()` (default constructor): sets height and width
to 0 and `configured` to false; `__firstLoad` is left uninitialized by the
source, so the model takes its initial value as a parameter. -/
def FlowFilter.mkDefault (firstLoad0 : Bool) : FlowFilter :=
  { hgt := 0, wdt := 0, configured := false, firstLoad := firstLoad0, rig := none }

/-- `FlowFilter::configure()` restricted to the stage rig it builds, in
source order: allocate InputImage (h,w,1,byte); construct ImageModel on it
(allocating ImageConstant (h,w,1,float) and ImageGradient (h,w,2,float));
allocate the dummy flow (h,w,2,float); construct FlowUpdate on
{dummyFlow, ImageConstant, ImageGradient} with provisional gamma=1.0,
maxflow=1.0 (allocating updatedFlow and updatedImage); construct FlowSmoother
on updatedFlow with 1 iteration (allocating smoothedFlow); construct
FlowPropagator on smoothedFlow with 1 iteration (allocating propagatedFlow);
rebind the update's input flow to propagatedFlow via `setInputFlow`; clear
propagatedFlow, updatedFlow, updatedImage, smoothedFlow. -/
def configureRig (h w : Int) : Rig :=
  let inputImage := GPUImage.alloc BufferId.inputImage h w 1 1
  let imageModel : ImageModel := { input := BufferId.inputImage }
  let imageConstant := GPUImage.alloc BufferId.imageConstant h w 1 4
  let imageGradient := GPUImage.alloc BufferId.imageGradient h w 2 4
  let dummyFlow := GPUImage.alloc BufferId.dummyFlow h w 2 4
  let update : FlowUpdate :=
    { inputFlow := BufferId.dummyFlow, imageConstantRef := BufferId.imageConstant,
      imageGradientRef := BufferId.imageGradient, gamma := 1, maxflow := 1 }
  let updatedFlow := GPUImage.alloc BufferId.updatedFlow h w 2 4
  let updatedImage := GPUImage.alloc BufferId.updatedImage h w 1 4
  let smoother : FlowSmoother := { inputFlow := BufferId.updatedFlow, iterations := 1 }
  let smoothedFlow := GPUImage.alloc BufferId.smoothedFlow h w 2 4
  let propagator : FlowPropagator := { inputFlow := BufferId.smoothedFlow, iterations := 1 }
  let propagatedFlow := GPUImage.alloc BufferId.propagatedFlow h w 2 4
  let update2 : FlowUpdate := { update with inputFlow := BufferId.propagatedFlow }
  { buffers :=
      { inputImage := inputImage
        propagatedFlow := propagatedFlow.clear
        updatedFlow := updatedFlow.clear
        updatedImage := updatedImage.clear
        smoothedFlow := smoothedFlow.clear
        imageConstant := imageConstant
        imageGradient := imageGradient
        dummyFlow := dummyFlow }
    imageModel := imageModel
    update := update2
    smoother := smoother
    propagator := propagator }

/-- `FlowFilter::configure()`: build and wire the stages, clear the four
pipeline buffers, then set `__configured = true` and `__firstLoad = true`. -/
def FlowFilter.configure (f : FlowFilter) : FlowFilter :=
  { f with rig := some (configureRig f.hgt f.wdt), configured := true, firstLoad := true }

/-- Observable side effects of a `compute()` call, in order of occurrence:
the timing bracket and the four stage `compute()` invocations. -/
inductive Event where
  | startTiming
  | imageModelCompute
  | propagatorCompute
  | updateCompute
  | smootherCompute
  | stopTiming
deriving DecidableEq, Repr

/-- `FlowFilter::compute()` on the rig: `startTiming()`, then
`__imageModel.compute()`, `__propagator.compute()`, `__update.compute()`,
`__smoother.compute()`, then `stopTiming()`; returns the new rig and the
trace of observable side effects. -/
def Rig.compute (r : Rig) : Rig × List Event :=
  let b1 := r.imageModel.run r.buffers
  let b2 := r.propagator.run b1
  let b3 := r.update.run b2
  let b4 := r.smoother.run b3
  ({ r with buffers := b4 },
   [Event.startTiming, Event.imageModelCompute, Event.propagatorCompute,
    Event.updateCompute, Event.smootherCompute, Event.stopTiming])

/-- `FlowFilter::compute()`; defined only on configured instances. -/
def FlowFilter.compute (f : FlowFilter) : Option (FlowFilter × List Event) :=
  f.rig.map fun r => ({ f with rig := some (r.compute).1 }, (r.compute).2)

/-- `FlowFilter::loadImage(image)`: upload the host image into InputImage
(the upload fails on a shape mismatch, aborting the call); if `__firstLoad`
is set, run `__imageModel.compute()`, copy the freshly computed ImageConstant
into the update stage's UpdatedImage, and clear `__firstLoad`. -/
def FlowFilter.loadImage (f : FlowFilter) (image : image_t) :
    Except FilterError FlowFilter :=
  match f.rig with
  | none => Except.error FilterError.notConfigured
  | some r =>
    match r.buffers.inputImage.upload image with
    | Except.error e => Except.error e
    | Except.ok inp =>
      let b1 := { r.buffers with inputImage := inp }
      if f.firstLoad then
        let b2 := r.imageModel.run b1
        let imConstant := b2.imageConstant
        let b3 := { b2 with updatedImage := b2.updatedImage.copyFrom imConstant }
        Except.ok { f with rig := some { r with buffers := b3 }, firstLoad := false }
      else
        Except.ok { f with rig := some { r with buffers := b1 } }

/-- `FlowFilter::downloadFlow(flow)`: downloads `__smoother.getSmoothedFlow()`
to the host; this is the handle the download reads from. -/
def Rig.downloadFlowSrc (r : Rig) : GPUImage :=
  r.buffers.smoothedFlow

/-- The contents the host receives from `downloadFlow`. -/
def Rig.downloadFlowVal (r : Rig) : Val :=
  r.buffers.smoothedFlow.data

/-- `FlowFilter::getFlow()`: returns `__update.getUpdatedFlow()`, the update
stage's output flow handle. -/
def Rig.getFlow (r : Rig) : GPUImage :=
  r.buffers.updatedFlow

/-- `FlowFilter::getGamma()`: pass-through to `__update.getGamma()`. -/
def Rig.getGamma (r : Rig) : ℚ :=
  r.update.gamma

/-- `FlowFilter::setGamma(gamma)`: pass-through to `__update.setGamma`. -/
def Rig.setGamma (r : Rig) (gamma : ℚ) : Rig :=
  { r with update := { r.update with gamma := gamma } }

/-- `FlowFilter::getMaxFlow()`: pass-through to `__update.getMaxFlow()`. -/
def Rig.getMaxFlow (r : Rig) : ℚ :=
  r.update.maxflow

/-- `FlowFilter::setMaxFlow(maxflow)`: pass-through to `__update.setMaxFlow`,
and recompute the propagator's iteration count as `int(ceilf(maxflow))`. -/
def Rig.setMaxFlow (r : Rig) (maxflow : ℚ) : Rig :=
  { r with
    update := { r.update with maxflow := maxflow }
    propagator := { r.propagator with iterations := Int.ceil maxflow } }

/-- `FlowFilter::getSmoothIterations()`: pass-through to the smoother. -/
def Rig.getSmoothIterations (r : Rig) : Int :=
  r.smoother.iterations

/-- `FlowFilter::setSmoothIterations(N)`: pass-through to the smoother. -/
def Rig.setSmoothIterations (r : Rig) (N : Int) : Rig :=
  { r with smoother := { r.smoother with iterations := N } }

/-- `FlowFilter::getPropagationIterations()`: read-only view of the
propagator's iteration count. -/
def Rig.getPropagationIterations (r : Rig) : Int :=
  r.propagator.iterations

/-- `FlowFilter::setGamma` lifted to the filter (acts on the rig). -/
def FlowFilter.setGamma (f : FlowFilter) (gamma : ℚ) : FlowFilter :=
  { f with rig := f.rig.map (Rig.setGamma · gamma) }

/-- `FlowFilter::setMaxFlow` lifted to the filter (acts on the rig). -/
def FlowFilter.setMaxFlow (f : FlowFilter) (maxflow : ℚ) : FlowFilter :=
  { f with rig := f.rig.map (Rig.setMaxFlow · maxflow) }

/-- `FlowFilter::setSmoothIterations` lifted to the filter. -/
def FlowFilter.setSmoothIterations (f : FlowFilter) (N : Int) : FlowFilter :=
  { f with rig := f.rig.map (Rig.setSmoothIterations · N) }

/-- `FlowFilter::height()`. -/
def FlowFilter.height (f : FlowFilter) : Int :=
  f.hgt

/-- `FlowFilter::width()`. -/
def FlowFilter.width (f : FlowFilter) : Int :=
  f.wdt

/-- The state the five-argument constructor starts from before calling
`configure()` (`__firstLoad` is uninitialized at that point in the source;
`configure()` overwrites it before any read, so the model fixes it). -/
def FlowFilter.base (height width : Int) : FlowFilter :=
  { hgt := height, wdt := width, configured := false, firstLoad := false, rig := none }

/-- `FlowFilter::FlowFilter(height, width, smoothIterations, maxflow, gamma)`:
fail when `height ≤ 0` or `width ≤ 0` (before `configure()` runs, so no
usable object is produced); otherwise set the dimensions, run `configure()`,
then `setGamma(gamma)`, `setMaxFlow(maxflow)`,
`setSmoothIterations(smoothIterations)`, in that order. -/
def FlowFilter.mk5 (height width smoothIterations : Int) (maxflow gamma : ℚ) :
    Except FilterError FlowFilter :=
  if height ≤ 0 then Except.error FilterError.constructionError
  else if width ≤ 0 then Except.error FilterError.constructionError
  else
    Except.ok
      (((((FlowFilter.base height width).configure).setGamma gamma).setMaxFlow
        maxflow).setSmoothIterations smoothIterations)

/-- `FlowFilter::FlowFilter(height, width)`: delegates to the five-argument
constructor with smoothIterations = 1, maxflow = 1.0, gamma = 1.0. -/
def FlowFilter.mk2 (height width : Int) : Except FilterError FlowFilter :=
  FlowFilter.mk5 height width 1 1 1

end Flowfilter

namespace Flowfilter

/-- Claim C1: on every configured FlowFilter, `compute()` executes exactly
ImageModel.compute, then FlowPropagator.compute, then FlowUpdate.compute,
then FlowSmoother.compute, bracketed by a timing start and stop, with no
observable side effect beyond buffer mutation: the stage objects are
unchanged, and each stage reads the buffers the previous stage wrote this
cycle (the dataflow equations below chain this cycle's outputs). -/
theorem compute_pipeline_order (r : Rig)
    (him : r.imageModel.input = BufferId.inputImage)
    (hp : r.propagator.inputFlow = BufferId.smoothedFlow)
    (hu : r.update.inputFlow = BufferId.propagatedFlow)
    (hic : r.update.imageConstantRef = BufferId.imageConstant)
    (hig : r.update.imageGradientRef = BufferId.imageGradient)
    (hs : r.smoother.inputFlow = BufferId.updatedFlow) :
    (r.compute).2 = [Event.startTiming, Event.imageModelCompute,
      Event.propagatorCompute, Event.updateCompute, Event.smootherCompute,
      Event.stopTiming] ∧
    (r.compute).1.imageModel = r.imageModel ∧
    (r.compute).1.update = r.update ∧
    (r.compute).1.smoother = r.smoother ∧
    (r.compute).1.propagator = r.propagator ∧
    (r.compute).1.buffers.imageConstant.data =
      Val.imConstant r.buffers.inputImage.data ∧
    (r.compute).1.buffers.imageGradient.data =
      Val.imGradient r.buffers.inputImage.data ∧
    (r.compute).1.buffers.propagatedFlow.data =
      Val.propagated r.buffers.smoothedFlow.data r.propagator.iterations ∧
    (r.compute).1.buffers.updatedFlow.data =
      Val.updFlow (r.compute).1.buffers.propagatedFlow.data
        (r.compute).1.buffers.imageConstant.data
        (r.compute).1.buffers.imageGradient.data
        r.buffers.updatedImage.data r.update.gamma r.update.maxflow ∧
    (r.compute).1.buffers.smoothedFlow.data =
      Val.smoothed (r.compute).1.buffers.updatedFlow.data
        r.smoother.iterations := by
  obtain ⟨b, ⟨imi⟩, ⟨uif, uic, uig, ug, um⟩, ⟨sif, sit⟩, ⟨pif, pit⟩⟩ := r
  simp only at him hp hu hic hig hs
  subst him hp hu hic hig hs
  exact ⟨rfl, rfl, rfl, rfl, rfl, rfl, rfl, rfl, rfl, rfl⟩

theorem compute_pipeline_order_witness :
    ((configureRig 2 3).compute).2 = [Event.startTiming,
      Event.imageModelCompute, Event.propagatorCompute, Event.updateCompute,
      Event.smootherCompute, Event.stopTiming] :=
  (compute_pipeline_order (configureRig 2 3) rfl rfl rfl rfl rfl rfl).1

/-- Claim C2: after `configure()` the four pipeline buffers propagatedFlow,
updatedFlow, updatedImage and smoothedFlow are all zero-filled (so
downloading smoothedFlow yields all-zero contents), and the `configured` and
`firstLoad` flags are both true. -/
theorem configure_zero_init (f : FlowFilter) :
    f.configure.configured = true ∧
    f.configure.firstLoad = true ∧
    f.configure.rig = some (configureRig f.hgt f.wdt) ∧
    ∀ h w, (configureRig h w).buffers.propagatedFlow.data = Val.zero ∧
      (configureRig h w).buffers.updatedFlow.data = Val.zero ∧
      (configureRig h w).buffers.updatedImage.data = Val.zero ∧
      (configureRig h w).buffers.smoothedFlow.data = Val.zero ∧
      (configureRig h w).downloadFlowVal = Val.zero :=
  ⟨rfl, rfl, rfl, fun _ _ => ⟨rfl, rfl, rfl, rfl, rfl⟩⟩

/-- Claim C3: the first `loadImage()` (with `firstLoad` true) uploads the
image, runs ImageModel.compute, copies the freshly computed ImageConstant
(computed from the just-uploaded image) into UpdatedImage, and clears
`firstLoad`; a `loadImage()` with `firstLoad` false only uploads and leaves
UpdatedImage untouched, so the bootstrap runs at most once. -/
theorem first_load_seeding (f : FlowFilter) (r : Rig) (img : image_t)
    (hr : f.rig = some r)
    (him : r.imageModel.input = BufferId.inputImage)
    (hh : img.height = r.buffers.inputImage.height)
    (hw : img.width = r.buffers.inputImage.width) :
    (f.firstLoad = true →
      ∃ r2, f.loadImage img =
          Except.ok { f with rig := some r2, firstLoad := false } ∧
        r2.buffers.updatedImage.data = Val.imConstant (Val.host img.data)) ∧
    (f.firstLoad = false →
      ∃ r2, f.loadImage img = Except.ok { f with rig := some r2 } ∧
        r2.buffers.updatedImage = r.buffers.updatedImage) := by
  constructor
  · intro hfl
    refine ⟨{ r with buffers :=
      let b2 := r.imageModel.run
        { r.buffers with inputImage :=
          { r.buffers.inputImage with data := Val.host img.data } }
      { b2 with updatedImage := b2.updatedImage.copyFrom b2.imageConstant } },
      ?_, ?_⟩
    · simp [FlowFilter.loadImage, hr, GPUImage.upload, hh, hw, hfl]
    · simp [ImageModel.run, GPUImage.copyFrom, Buffers.read, him]
  · intro hfl
    refine ⟨{ r with buffers :=
      { r.buffers with inputImage :=
        { r.buffers.inputImage with data := Val.host img.data } } }, ?_, rfl⟩
    simp [FlowFilter.loadImage, hr, GPUImage.upload, hh, hw, hfl]

theorem first_load_seeding_witness :
    ∃ r2, ((FlowFilter.base 2 3).configure).loadImage ⟨2, 3, 7⟩ =
        Except.ok { (FlowFilter.base 2 3).configure with
          rig := some r2, firstLoad := false } ∧
      r2.buffers.updatedImage.data = Val.imConstant (Val.host 7) :=
  (first_load_seeding ((FlowFilter.base 2 3).configure) (configureRig 2 3)
    ⟨2, 3, 7⟩ rfl rfl rfl rfl).1 rfl

/-- Claim C4: after `setMaxFlow(v)`, `getPropagationIterations()` returns
`ceil(v)`, and `getMaxFlow()` returns `v`; the propagation iteration count is
not independently settable: `setGamma`, `setSmoothIterations` and `compute`
leave it unchanged. -/
theorem set_max_flow_derives_iterations (r : Rig) (v : ℚ) :
    (r.setMaxFlow v).getPropagationIterations = Int.ceil v ∧
    (r.setMaxFlow v).getMaxFlow = v ∧
    (∀ g, (r.setGamma g).getPropagationIterations =
      r.getPropagationIterations) ∧
    (∀ N, (r.setSmoothIterations N).getPropagationIterations =
      r.getPropagationIterations) ∧
    (r.compute).1.getPropagationIterations = r.getPropagationIterations :=
  ⟨rfl, rfl, fun _ => rfl, fun _ => rfl, rfl⟩

/-- Claim C5: the five-argument constructor fails with a construction error
whenever `height ≤ 0` or `width ≤ 0` (before `configure()` runs, so no
object is produced), and succeeds for positive dimensions, producing a
configured filter with the requested dimensions. -/
theorem constructor_validates_dimensions (height width smoothIterations : Int)
    (maxflow gamma : ℚ) :
    (height ≤ 0 ∨ width ≤ 0 →
      FlowFilter.mk5 height width smoothIterations maxflow gamma =
        Except.error FilterError.constructionError) ∧
    (0 < height → 0 < width →
      ∃ f, FlowFilter.mk5 height width smoothIterations maxflow gamma =
          Except.ok f ∧
        f.configured = true ∧ f.hgt = height ∧ f.wdt = width) := by
  constructor
  · rintro (h1 | h2)
    · simp [FlowFilter.mk5, if_pos h1]
    · rcases le_or_lt height 0 with h | h
      · simp [FlowFilter.mk5, if_pos h]
      · simp [FlowFilter.mk5, not_le.mpr h, if_pos h2]
  · intro h1 h2
    refine ⟨(((((FlowFilter.base height width).configure).setGamma
      gamma).setMaxFlow maxflow).setSmoothIterations smoothIterations),
      ?_, rfl, rfl, rfl⟩
    simp [FlowFilter.mk5, not_le.mpr h1, not_le.mpr h2]

theorem constructor_validates_dimensions_witness :
    FlowFilter.mk5 0 5 1 1 1 = Except.error FilterError.constructionError ∧
    FlowFilter.mk5 (-1) (-1) 1 1 1 =
      Except.error FilterError.constructionError ∧
    FlowFilter.mk5 5 0 1 1 1 = Except.error FilterError.constructionError ∧
    ∃ f, FlowFilter.mk5 4 4 2 4 (1/2) = Except.ok f ∧
      f.configured = true ∧ f.hgt = 4 ∧ f.wdt = 4 :=
  ⟨(constructor_validates_dimensions 0 5 1 1 1).1 (Or.inl (by norm_num)),
   (constructor_validates_dimensions (-1) (-1) 1 1 1).1
     (Or.inl (by norm_num)),
   (constructor_validates_dimensions 5 0 1 1 1).1 (Or.inr (by norm_num)),
   (constructor_validates_dimensions 4 4 2 4 (1/2)).2
     (by norm_num) (by norm_num)⟩

/-- Claim C6: `loadImage` on a host image whose dimensions differ from the
configured (height, width) fails with a ShapeMismatch error — the call
aborts before the first-load branch, so no seeding occurs and no successor
state is produced; the configured InputImage buffer indeed has the
constructor's dimensions. -/
theorem load_image_shape_mismatch (f : FlowFilter) (r : Rig) (img : image_t)
    (hr : f.rig = some r)
    (hdim : r.buffers.inputImage.height = f.hgt ∧
      r.buffers.inputImage.width = f.wdt)
    (hm : img.height ≠ f.hgt ∨ img.width ≠ f.wdt) :
    f.loadImage img = Except.error FilterError.shapeMismatch ∧
    (∀ h w, (configureRig h w).buffers.inputImage.height = h ∧
      (configureRig h w).buffers.inputImage.width = w) := by
  refine ⟨?_, fun _ _ => ⟨rfl, rfl⟩⟩
  have hcond : ¬(img.height = r.buffers.inputImage.height ∧
      img.width = r.buffers.inputImage.width) := by
    rw [hdim.1, hdim.2]
    tauto
  simp only [FlowFilter.loadImage, hr, GPUImage.upload, if_neg hcond]

theorem load_image_shape_mismatch_witness :
    ((FlowFilter.base 2 3).configure).loadImage ⟨1, 1, 5⟩ =
      Except.error FilterError.shapeMismatch :=
  (load_image_shape_mismatch ((FlowFilter.base 2 3).configure)
    (configureRig 2 3) ⟨1, 1, 5⟩ rfl ⟨rfl, rfl⟩
    (Or.inl (by decide))).1

/-- Claim C7: `getFlow()` returns the update stage's updatedFlow handle,
while `downloadFlow` reads the smoother's smoothedFlow buffer; after
configuration these are distinct device allocations (distinct buffer
identities, preserved by `compute`). -/
theorem get_flow_distinct_from_download (r : Rig) :
    r.getFlow = r.buffers.updatedFlow ∧
    r.downloadFlowSrc = r.buffers.smoothedFlow ∧
    r.downloadFlowVal = r.buffers.smoothedFlow.data ∧
    (∀ h w, (configureRig h w).getFlow.id = BufferId.updatedFlow ∧
      (configureRig h w).downloadFlowSrc.id = BufferId.smoothedFlow) ∧
    (r.compute).1.getFlow.id = r.getFlow.id ∧
    (r.compute).1.downloadFlowSrc.id = r.downloadFlowSrc.id ∧
    BufferId.updatedFlow ≠ BufferId.smoothedFlow :=
  ⟨rfl, rfl, rfl, fun _ _ => ⟨rfl, rfl⟩, rfl, rfl, by decide⟩

/-- Claim C8: the parameterized constructor applies, after `configure()`,
`setGamma`, then `setMaxFlow`, then `setSmoothIterations`, in that order;
each of the three setters is idempotent, and applying the three setters in
any of the six orders yields the same final state. -/
theorem constructor_setter_order_and_algebra
    (height width smoothIterations : Int) (maxflow gamma : ℚ) (r : Rig) :
    (0 < height → 0 < width →
      FlowFilter.mk5 height width smoothIterations maxflow gamma =
        Except.ok (((((FlowFilter.base height width).configure).setGamma
          gamma).setMaxFlow maxflow).setSmoothIterations smoothIterations)) ∧
    (r.setGamma gamma).setGamma gamma = r.setGamma gamma ∧
    (r.setMaxFlow maxflow).setMaxFlow maxflow = r.setMaxFlow maxflow ∧
    (r.setSmoothIterations smoothIterations).setSmoothIterations
      smoothIterations = r.setSmoothIterations smoothIterations ∧
    ((r.setGamma gamma).setMaxFlow maxflow).setSmoothIterations
      smoothIterations =
      ((r.setGamma gamma).setSmoothIterations smoothIterations).setMaxFlow
        maxflow ∧
    ((r.setGamma gamma).setMaxFlow maxflow).setSmoothIterations
      smoothIterations =
      ((r.setMaxFlow maxflow).setGamma gamma).setSmoothIterations
        smoothIterations ∧
    ((r.setGamma gamma).setMaxFlow maxflow).setSmoothIterations
      smoothIterations =
      ((r.setMaxFlow maxflow).setSmoothIterations smoothIterations).setGamma
        gamma ∧
    ((r.setGamma gamma).setMaxFlow maxflow).setSmoothIterations
      smoothIterations =
      ((r.setSmoothIterations smoothIterations).setGamma gamma).setMaxFlow
        maxflow ∧
    ((r.setGamma gamma).setMaxFlow maxflow).setSmoothIterations
      smoothIterations =
      ((r.setSmoothIterations smoothIterations).setMaxFlow maxflow).setGamma
        gamma := by
  refine ⟨?_, rfl, rfl, rfl, rfl, rfl, rfl, rfl, rfl⟩
  intro h1 h2
  simp [FlowFilter.mk5, not_le.mpr h1, not_le.mpr h2]

theorem constructor_setter_order_and_algebra_witness :
    FlowFilter.mk5 2 3 2 4 (1/2) =
      Except.ok (((((FlowFilter.base 2 3).configure).setGamma
        (1/2)).setMaxFlow 4).setSmoothIterations 2) :=
  (constructor_setter_order_and_algebra 2 3 2 4 (1/2)
    (configureRig 2 3)).1 (by norm_num) (by norm_num)

/-- Claim C9: `setGamma(g)` is a pure pass-through to FlowUpdate: it changes
only the gamma parameter — `getGamma` then returns `g` while `getMaxFlow`,
`getSmoothIterations`, `getPropagationIterations`, `height()` and `width()`
are all unchanged. -/
theorem set_gamma_frame (f : FlowFilter) (r : Rig) (g : ℚ)
    (hr : f.rig = some r) :
    (f.setGamma g).rig = some (r.setGamma g) ∧
    (r.setGamma g).getGamma = g ∧
    (r.setGamma g).getMaxFlow = r.getMaxFlow ∧
    (r.setGamma g).getSmoothIterations = r.getSmoothIterations ∧
    (r.setGamma g).getPropagationIterations =
      r.getPropagationIterations ∧
    (f.setGamma g).height = f.height ∧
    (f.setGamma g).width = f.width := by
  refine ⟨?_, rfl, rfl, rfl, rfl, rfl, rfl⟩
  simp [FlowFilter.setGamma, hr]

theorem set_gamma_frame_witness :
    ((configureRig 2 3).setGamma (5/2)).getGamma = 5/2 :=
  (set_gamma_frame ((FlowFilter.base 2 3).configure) (configureRig 2 3)
    (5/2) rfl).2.1

/-- Claim C10: the default constructor always succeeds (it is a total
function in the model) and yields an instance with height 0, width 0,
`configured` false, and no stage rig — no `configure()` call and no buffer
allocation — for any value of the uninitialized `__firstLoad` bit. -/
theorem default_constructor_unconfigured (firstLoad0 : Bool) :
    (FlowFilter.mkDefault firstLoad0).height = 0 ∧
    (FlowFilter.mkDefault firstLoad0).width = 0 ∧
    (FlowFilter.mkDefault firstLoad0).configured = false ∧
    (FlowFilter.mkDefault firstLoad0).rig = none :=
  ⟨rfl, rfl, rfl, rfl⟩

end Flowfilter
